import Mathlib

/-!
Verification development for the time-attendance check-in service
(src/main.py): a shallow embedding of its pure core — identifier/PIN
normalization, period parsing, the roster loader, the IP allow-list
guard, the check-in handler with the alternation rule, and the three
admin export pipelines — together with theorems about the embedded
definitions.

Modelling conventions:
- Python strings are Lean `String`s; `str.isdigit` is modelled by
  `Char.isDigit` (the roster and requests use ASCII digits).
- Aware `datetime` values are modelled at second granularity by an
  absolute instant (seconds since the Unix epoch, UTC) plus the
  attached UTC offset in seconds; comparison of aware datetimes (and
  of `timestamptz` columns in SQL) is comparison of instants, and
  `astimezone` keeps the instant while replacing the offset.
- The events table is a `List Registro` in insertion order; the SQL
  `ORDER BY data_hora ASC` is a stable sort by instant and the
  `ORDER BY data_hora DESC LIMIT 1` read keeps the latest-inserted
  row among those with maximal timestamp.
- `raise HTTPException` is an `Except` error carrying status and
  detail; a handler returns the error and leaves the table unchanged,
  since the code raises before any `db.add`.
-/

namespace AttendanceApp

/-- An HTTP error raised by a handler: status code plus detail string. -/
structure HTTPException where
  status_code : Nat
  detail : String
deriving DecidableEq, Repr

/-- normalize_cpf from src/main.py: keep only the digit characters. -/
def normalize_cpf (cpf : String) : String :=
  String.mk (cpf.data.filter Char.isDigit)

/-- normalize_pin from src/main.py: keep only the digit characters. -/
def normalize_pin (pin : String) : String :=
  String.mk (pin.data.filter Char.isDigit)

/-- Gregorian leap-year rule, as Python's datetime.date uses. -/
def isLeapYear (y : Nat) : Bool :=
  y % 4 == 0 && (y % 100 != 0 || y % 400 == 0)

/-- Number of days in a month of the proleptic Gregorian calendar. -/
def daysInMonth (y m : Nat) : Nat :=
  if m = 2 then (if isLeapYear y then 29 else 28)
  else if m = 4 ∨ m = 6 ∨ m = 9 ∨ m = 11 then 30
  else 31

/-- A calendar date as Python's datetime.date holds it. -/
structure PDate where
  year : Nat
  month : Nat
  day : Nat
deriving DecidableEq, Repr

/-- Validity of a date for Python's datetime.date constructor
(year 1..9999, month 1..12, day within the month). -/
def PDate.valid (d : PDate) : Bool :=
  1 ≤ d.year && d.year ≤ 9999 && 1 ≤ d.month && d.month ≤ 12 &&
  1 ≤ d.day && d.day ≤ daysInMonth d.year d.month

/-- Python date comparison: lexicographic on (year, month, day). -/
def PDate.ltb (a b : PDate) : Bool :=
  a.year < b.year ||
  (a.year == b.year && (a.month < b.month ||
    (a.month == b.month && a.day < b.day)))

/-- Numeric value of an ASCII digit character. -/
def digitVal (c : Char) : Nat := c.toNat - 48

/-- date.fromisoformat restricted to the dashed YYYY-MM-DD form the
export endpoints document: ten characters, digits in the year, month
and day positions, dashes between, and the result a valid date. -/
def date_fromisoformat (s : String) : Option PDate :=
  match s.data with
  | [y1, y2, y3, y4, s1, m1, m2, s2, d1, d2] =>
    if s1 == '-' && s2 == '-' &&
       ([y1, y2, y3, y4, m1, m2, d1, d2].all Char.isDigit) then
      let d : PDate :=
        ⟨digitVal y1 * 1000 + digitVal y2 * 100 + digitVal y3 * 10 + digitVal y4,
         digitVal m1 * 10 + digitVal m2,
         digitVal d1 * 10 + digitVal d2⟩
      if d.valid then some d else none
    else none
  | _ => none

/-- Days since 1970-01-01 of a proleptic Gregorian date
(civil-from-days inverse, standard algorithm, floor division). -/
def daysFromCivil (y m d : Int) : Int :=
  let y2 := if m ≤ 2 then y - 1 else y
  let era := y2.fdiv 400
  let yoe := y2 - era * 400
  let mp := if m > 2 then m - 3 else m + 9
  let doy := (153 * mp + 2).fdiv 5 + d - 1
  let doe := yoe * 365 + yoe.fdiv 4 - yoe.fdiv 100 + doy
  era * 146097 + doe - 719468

/-- Date of a count of days since 1970-01-01 (standard algorithm). -/
def civilFromDays (z0 : Int) : Int × Int × Int :=
  let z := z0 + 719468
  let era := z.fdiv 146097
  let doe := z - era * 146097
  let yoe := (doe - doe.fdiv 1460 + doe.fdiv 36524 - doe.fdiv 146096).fdiv 365
  let y := yoe + era * 400
  let doy := doe - (365 * yoe + yoe.fdiv 4 - yoe.fdiv 100)
  let mp := (5 * doy + 2).fdiv 153
  let d := doy - (153 * mp + 2).fdiv 5 + 1
  let m := if mp < 10 then mp + 3 else mp - 9
  (if m ≤ 2 then y + 1 else y, m, d)

/-- An offset-aware datetime at second granularity: the absolute
instant (seconds since the Unix epoch, UTC) and the attached offset. -/
structure PyDateTime where
  instant : Int
  offsetSec : Int
deriving DecidableEq, Repr

/-- The fixed Brazil offset BRT = timezone(timedelta(hours=-3)),
in seconds. -/
def BRT : Int := -3 * 3600

/-- datetime.combine(d, time(h, mi, s), tzinfo=off): wall-clock time
on date d with the given offset attached. -/
def datetime_combine (d : PDate) (h mi s : Nat) (off : Int) : PyDateTime :=
  ⟨daysFromCivil (Int.ofNat d.year) (Int.ofNat d.month) (Int.ofNat d.day) * 86400
     + (Int.ofNat (h * 3600 + mi * 60 + s)) - off, off⟩

/-- astimezone: same instant, new offset. -/
def PyDateTime.astimezone (t : PyDateTime) (off : Int) : PyDateTime :=
  ⟨t.instant, off⟩

/-- brt_now from src/main.py: the current instant with the BRT offset
attached; the instant is a parameter of the model. -/
def brt_now (t : Int) : PyDateTime := ⟨t, BRT⟩

/-- parse_period from src/main.py: parse both strings as dates (400 on
failure), require end ≥ start (400 otherwise), and return the start
date at 00:00:00 and the end date at 23:59:59, both at BRT. -/
def parse_period (startS endS : String) :
    Except HTTPException (PyDateTime × PyDateTime) :=
  match date_fromisoformat startS, date_fromisoformat endS with
  | some s, some e =>
    if e.ltb s then
      .error ⟨400, "end deve ser >= start."⟩
    else
      .ok (datetime_combine s 0 0 0 BRT, datetime_combine e 23 59 59 BRT)
  | _, _ => .error ⟨400, "Use start/end no formato YYYY-MM-DD."⟩

example : date_fromisoformat "2025-01-05" = some ⟨2025, 1, 5⟩ := by decide
example : date_fromisoformat "2025-13-05" = none := by decide
example : date_fromisoformat "2025-1-5" = none := by decide
example :
    parse_period "2025-01-05" "2025-01-05" =
      .ok (⟨1736046000, BRT⟩, ⟨1736132399, BRT⟩) := by rfl
example :
    parse_period "2025-01-10" "2025-01-05" =
      .error ⟨400, "end deve ser >= start."⟩ := by rfl

/-- Decimal rendering of a Nat, zero-padded on the left to width w. -/
def natPad (w n : Nat) : String :=
  let s := toString n
  String.mk (List.replicate (w - s.length) '0') ++ s

/-- Rendering of a UTC offset as ±HH:MM, as isoformat prints it. -/
def offsetString (off : Int) : String :=
  let sign := if off < 0 then "-" else "+"
  let a := off.natAbs
  sign ++ natPad 2 (a / 3600) ++ ":" ++ natPad 2 (a % 3600 / 60)

/-- The wall-clock fields (year, month, day, hour, minute, second) an
aware datetime displays at its own offset. -/
def PyDateTime.civil (t : PyDateTime) : Int × Int × Int × Nat × Nat × Nat :=
  let wall := t.instant + t.offsetSec
  let days := wall.fdiv 86400
  let sod := (wall - days * 86400).toNat
  match civilFromDays days with
  | (y, m, d) => (y, m, d, sod / 3600, sod % 3600 / 60, sod % 60)

/-- datetime.isoformat() of a second-granularity aware value:
YYYY-MM-DDTHH:MM:SS±HH:MM. -/
def PyDateTime.isoformat (t : PyDateTime) : String :=
  match t.civil with
  | (y, m, d, h, mi, s) =>
    natPad 4 y.natAbs ++ "-" ++ natPad 2 m.natAbs ++ "-" ++ natPad 2 d.natAbs ++
    "T" ++ natPad 2 h ++ ":" ++ natPad 2 mi ++ ":" ++ natPad 2 s ++
    offsetString t.offsetSec

/-- strftime of the export formats: DD/MM/YYYY HH:MM:SS. -/
def PyDateTime.strftimeBR (t : PyDateTime) : String :=
  match t.civil with
  | (y, m, d, h, mi, s) =>
    natPad 2 d.natAbs ++ "/" ++ natPad 2 m.natAbs ++ "/" ++ natPad 4 y.natAbs ++
    " " ++ natPad 2 h ++ ":" ++ natPad 2 mi ++ ":" ++ natPad 2 s

example :
    PyDateTime.isoformat ⟨1736046000, BRT⟩ = "2025-01-05T00:00:00-03:00" := by rfl
example :
    PyDateTime.strftimeBR ⟨1736132399, BRT⟩ = "05/01/2025 23:59:59" := by rfl

/-- The Acao enum: the two legal actions. -/
inductive Acao
  | ENTRADA
  | SAIDA
deriving DecidableEq, Repr

/-- The string value of each enum member. -/
def Acao.value : Acao → String
  | .ENTRADA => "Entrada"
  | .SAIDA => "Saída"

/-- A row of the registros table. -/
structure Registro where
  nome : String
  cpf : String
  acao : String
  data_hora : PyDateTime
  ip_origem : Option String
deriving DecidableEq, Repr

/-- The body of POST /check. -/
structure CheckRequest where
  cpf : String
  pin : String
  acao : Acao
deriving DecidableEq, Repr

/-- The JSON body of a successful POST /check. -/
structure CheckResponse where
  nome : String
  cpf : String
  acao : String
  data_hora : String
deriving DecidableEq, Repr

/-- The user directory: normalized identifier to (name, PIN). -/
def Users := String → Option (String × String)

/-- The request-independent context of a /check call: configured
allow-list, loaded roster, resolved client address, current instant. -/
structure Env where
  allowed_ips : List String
  users : Users
  client_ip : String
  now : Int

/-- enforce_ip_allowlist from src/main.py: an empty configured list
permits every address; otherwise the client address must be listed. -/
def enforce_ip_allowlist (allowed : List String) (ip : String) :
    Except HTTPException Unit :=
  if allowed = [] then .ok ()
  else if ip ∈ allowed then .ok ()
  else .error ⟨403, "Acesso negado fora do ambiente autorizado. IP=" ++ ip⟩

/-- The SELECT ... WHERE cpf = c ORDER BY data_hora DESC LIMIT 1 read:
the latest-inserted row among those for c with maximal timestamp. -/
def lastEvent (db : List Registro) (c : String) : Option Registro :=
  db.foldl
    (fun acc r =>
      if r.cpf = c then
        match acc with
        | none => some r
        | some b => if b.data_hora.instant ≤ r.data_hora.instant then some r else some b
      else acc)
    none

/-- The guard-and-build phase of registrar_ponto: every check the
handler performs before db.add, in source order, producing either the
HTTPException the handler raises or the row it persists. -/
def checkResult (env : Env) (p : CheckRequest) (db : List Registro) :
    Except HTTPException Registro :=
  match enforce_ip_allowlist env.allowed_ips env.client_ip with
  | .error err => .error err
  | .ok _ =>
    if (normalize_cpf p.cpf).length ≠ 11 then
      .error ⟨400, "CPF inválido (precisa ter 11 dígitos)."⟩
    else if ¬ (4 ≤ (normalize_pin p.pin).length ∧ (normalize_pin p.pin).length ≤ 8) then
      .error ⟨400, "PIN inválido (precisa ter 4 a 8 dígitos)."⟩
    else
      match env.users (normalize_cpf p.cpf) with
      | none => .error ⟨404, "Usuário não cadastrado no usuarios.txt."⟩
      | some (nome_cadastrado, pin_cadastrado) =>
        if normalize_pin p.pin ≠ pin_cadastrado then
          .error ⟨401, "PIN incorreto."⟩
        else
          match lastEvent db (normalize_cpf p.cpf) with
          | some last =>
            if last.acao = p.acao.value then
              .error ⟨400, "Último registro foi \x27" ++ last.acao ++
                "\x27. Você precisa registrar o oposto antes."⟩
            else
              .ok ⟨nome_cadastrado, normalize_cpf p.cpf, p.acao.value,
                brt_now env.now, some env.client_ip⟩
          | none =>
            .ok ⟨nome_cadastrado, normalize_cpf p.cpf, p.acao.value,
              brt_now env.now, some env.client_ip⟩

/-- registrar_ponto from src/main.py: on any raised check the table is
unchanged; on success the new row is committed and echoed back with
its timestamp in isoformat. -/
def registrar_ponto (env : Env) (p : CheckRequest) (db : List Registro) :
    Except HTTPException CheckResponse × List Registro :=
  match checkResult env p db with
  | .error err => (.error err, db)
  | .ok reg =>
    (.ok ⟨reg.nome, reg.cpf, reg.acao, reg.data_hora.isoformat⟩, db ++ [reg])

/-- Lower-casing of a string, as Python str.lower on ASCII. -/
def strLower (s : String) : String := String.mk (s.data.map Char.toLower)

/-- Python str.strip(): drop whitespace from both ends. -/
def pyStrip (s : String) : String :=
  String.mk
    (((s.data.dropWhile Char.isWhitespace).reverse.dropWhile
        Char.isWhitespace).reverse)

/-- Python str.startswith on a single-character prefix. -/
def startsWithChar (s : String) (c : Char) : Bool :=
  match s.data with
  | [] => false
  | c0 :: _ => c0 = c

/-- Membership of a character in a string (Python `c in line`). -/
def hasChar (s : String) (c : Char) : Bool := s.data.contains c

/-- Python str.split(sep) on a one-character separator: split at every
occurrence, keeping empty fields (so the empty string yields one empty
field). -/
def splitChars (sep : Char) : List Char → List (List Char)
  | [] => [[]]
  | c :: rest =>
    let r := splitChars sep rest
    if c = sep then [] :: r
    else
      match r with
      | h :: t => (c :: h) :: t
      | [] => [[c]]

/-- Python line.split(sep) for a one-character separator string. -/
def splitOnSep (s : String) (sep : Char) : List String :=
  (splitChars sep s.data).map String.mk

/-- The separator detection of load_users_from_txt: a semicolon
anywhere in the line wins, else a comma, else the line is invalid. -/
def detectSep (line : String) : Option Char :=
  if hasChar line ';' then some ';'
  else if hasChar line ',' then some ','
  else none

/-- The header test of load_users_from_txt on the three split fields. -/
def isHeader (nome cpf pin : String) : Bool :=
  (strLower nome == "nome" || strLower nome == "name") &&
  strLower cpf == "cpf" &&
  (strLower pin == "pin" || strLower pin == "senha")

/-- The per-record tail of the load_users_from_txt loop body, after
the three fields are extracted: skip headers, discard records whose
normalized identifier is not 11 digits or whose normalized PIN is not
4 to 8 digits, and otherwise bind the normalized identifier. -/
def processFields (users : Users) (nome cpf pin : String) : Users :=
  if isHeader nome cpf pin then users
  else if (normalize_cpf cpf).length ≠ 11 then users
  else if ¬ (4 ≤ (normalize_pin pin).length ∧ (normalize_pin pin).length ≤ 8) then users
  else fun k =>
    if k = normalize_cpf cpf then some (pyStrip nome, normalize_pin pin) else users k

/-- The `len(parts) < 3` guard of load_users_from_txt followed by the
unpacking `nome, cpf, pin = parts[0], parts[1], parts[2]`: fewer than
three fields skips the line, extra fields beyond three are ignored. -/
def processParts (users : Users) : List String → Users
  | nome :: cpf :: pin :: _ => processFields users nome cpf pin
  | _ => users

/-- One iteration of the load_users_from_txt loop: strip the line,
skip blanks and comments, detect the separator (skipping lines that
have none), split and strip the fields, and hand them on. -/
def processLine (users : Users) (raw : String) : Users :=
  if (pyStrip raw).isEmpty || startsWithChar (pyStrip raw) '#' then users
  else
    match detectSep (pyStrip raw) with
    | none => users
    | some sep => processParts users ((splitOnSep (pyStrip raw) sep).map pyStrip)

/-- load_users_from_txt from src/main.py, over the list of lines of
the roster file, starting from the empty mapping. -/
def load_users_from_txt (lines : List String) : Users :=
  lines.foldl processLine (fun _ => none)

example :
    load_users_from_txt ["# comentário", "nome;cpf;pin",
      "Ana Silva;12345678901;1234"] "12345678901" =
      some ("Ana Silva", "1234") := by decide
example :
    load_users_from_txt ["Bob;1234567890;1234"] "1234567890" = none := by decide
example :
    load_users_from_txt ["Ana;123.456.789-01;12 34"] "12345678901" =
      some ("Ana", "1234") := by decide

/-- The relational order of the export queries: ascending timestamp. -/
def dtLe (a b : Registro) : Prop :=
  a.data_hora.instant ≤ b.data_hora.instant

instance : DecidableRel dtLe := fun a b =>
  inferInstanceAs (Decidable (a.data_hora.instant ≤ b.data_hora.instant))

instance : IsTotal Registro dtLe :=
  ⟨fun a b => Int.le_total a.data_hora.instant b.data_hora.instant⟩

instance : IsTrans Registro dtLe :=
  ⟨fun _ _ _ hab hbc => le_trans hab hbc⟩

/-- The shared export query: SELECT ... WHERE data_hora BETWEEN the
period bounds (inclusive on both ends, comparing instants) ORDER BY
data_hora ASC, over a table held in insertion order. -/
def selectRegistros (db : List Registro) (s e : PyDateTime) : List Registro :=
  List.insertionSort dtLe
    (db.filter fun r =>
      s.instant ≤ r.data_hora.instant && r.data_hora.instant ≤ e.instant)

/-- One record of the /admin/export.json payload. -/
structure JsonRow where
  nome : String
  cpf : String
  acao : String
  data_hora : String
  ip_origem : Option String
deriving DecidableEq, Repr

/-- The registros list built by admin_export_json: its own copy of the
range query, each row timestamped via astimezone(BRT).isoformat(). -/
def admin_export_json_rows (db : List Registro) (s e : PyDateTime) :
    List JsonRow :=
  (List.insertionSort dtLe
      (db.filter fun r =>
        s.instant ≤ r.data_hora.instant && r.data_hora.instant ≤ e.instant)).map
    fun r =>
      ⟨r.nome, r.cpf, r.acao, (r.data_hora.astimezone BRT).isoformat, r.ip_origem⟩

/-- The rows written by admin_export_csv: header then one record per
event, timestamps via astimezone(BRT).strftime. -/
def admin_export_csv_rows (db : List Registro) (s e : PyDateTime) :
    List (List String) :=
  ["Nome", "CPF", "Ação", "Data/Hora"] ::
  (List.insertionSort dtLe
      (db.filter fun r =>
        s.instant ≤ r.data_hora.instant && r.data_hora.instant ≤ e.instant)).map
    fun r =>
      [r.nome, r.cpf, r.acao, (r.data_hora.astimezone BRT).strftimeBR]

/-- The rows appended to the worksheet by admin_export_xlsx: header
then one record per event, timestamps via astimezone(BRT).strftime. -/
def admin_export_xlsx_rows (db : List Registro) (s e : PyDateTime) :
    List (List String) :=
  ["Nome", "CPF", "Ação", "Data/Hora"] ::
  (List.insertionSort dtLe
      (db.filter fun r =>
        s.instant ≤ r.data_hora.instant && r.data_hora.instant ≤ e.instant)).map
    fun r =>
      [r.nome, r.cpf, r.acao, (r.data_hora.astimezone BRT).strftimeBR]

/-! ### Helper lemmas -/

theorem normalize_cpf_all_digits (s : String) :
    (normalize_cpf s).data.all Char.isDigit = true :=
  List.all_eq_true.2 fun _ hc => (List.mem_filter.1 hc).2

theorem registrar_of_error (env : Env) (p : CheckRequest) (db : List Registro)
    (err : HTTPException) (h : checkResult env p db = .error err) :
    registrar_ponto env p db = (.error err, db) := by
  unfold registrar_ponto
  rw [h]

theorem registrar_of_ok (env : Env) (p : CheckRequest) (db : List Registro)
    (reg : Registro) (h : checkResult env p db = .ok reg) :
    registrar_ponto env p db =
      (.ok ⟨reg.nome, reg.cpf, reg.acao, reg.data_hora.isoformat⟩, db ++ [reg]) := by
  unfold registrar_ponto
  rw [h]

theorem checkResult_ip_error (env : Env) (p : CheckRequest) (db : List Registro)
    (err : HTTPException)
    (h : enforce_ip_allowlist env.allowed_ips env.client_ip = .error err) :
    checkResult env p db = .error err := by
  unfold checkResult
  rw [h]

theorem checkResult_cpf_invalid (env : Env) (p : CheckRequest) (db : List Registro)
    (hip : enforce_ip_allowlist env.allowed_ips env.client_ip = .ok ())
    (hcpf : (normalize_cpf p.cpf).length ≠ 11) :
    checkResult env p db = .error ⟨400, "CPF inválido (precisa ter 11 dígitos)."⟩ := by
  unfold checkResult
  rw [hip]
  simp [hcpf]

theorem checkResult_pin_invalid (env : Env) (p : CheckRequest) (db : List Registro)
    (hip : enforce_ip_allowlist env.allowed_ips env.client_ip = .ok ())
    (hcpf : (normalize_cpf p.cpf).length = 11)
    (hpin : ¬ (4 ≤ (normalize_pin p.pin).length ∧ (normalize_pin p.pin).length ≤ 8)) :
    checkResult env p db = .error ⟨400, "PIN inválido (precisa ter 4 a 8 dígitos)."⟩ := by
  unfold checkResult
  rw [hip]
  simp [hcpf, hpin]

theorem checkResult_user_unknown (env : Env) (p : CheckRequest) (db : List Registro)
    (hip : enforce_ip_allowlist env.allowed_ips env.client_ip = .ok ())
    (hcpf : (normalize_cpf p.cpf).length = 11)
    (hpin1 : 4 ≤ (normalize_pin p.pin).length)
    (hpin2 : (normalize_pin p.pin).length ≤ 8)
    (hu : env.users (normalize_cpf p.cpf) = none) :
    checkResult env p db = .error ⟨404, "Usuário não cadastrado no usuarios.txt."⟩ := by
  unfold checkResult
  rw [hip]
  simp [hcpf, hpin1, hpin2, hu]

theorem checkResult_pin_mismatch (env : Env) (p : CheckRequest) (db : List Registro)
    (nome pin : String)
    (hip : enforce_ip_allowlist env.allowed_ips env.client_ip = .ok ())
    (hcpf : (normalize_cpf p.cpf).length = 11)
    (hpin1 : 4 ≤ (normalize_pin p.pin).length)
    (hpin2 : (normalize_pin p.pin).length ≤ 8)
    (hu : env.users (normalize_cpf p.cpf) = some (nome, pin))
    (hne : normalize_pin p.pin ≠ pin) :
    checkResult env p db = .error ⟨401, "PIN incorreto."⟩ := by
  unfold checkResult
  rw [hip]
  simp [hcpf, hpin1, hpin2, hu, hne]

theorem checkResult_alternation (env : Env) (p : CheckRequest) (db : List Registro)
    (nome pin : String) (last : Registro)
    (hip : enforce_ip_allowlist env.allowed_ips env.client_ip = .ok ())
    (hcpf : (normalize_cpf p.cpf).length = 11)
    (hpin1 : 4 ≤ (normalize_pin p.pin).length)
    (hpin2 : (normalize_pin p.pin).length ≤ 8)
    (hu : env.users (normalize_cpf p.cpf) = some (nome, pin))
    (heq : normalize_pin p.pin = pin)
    (hl : lastEvent db (normalize_cpf p.cpf) = some last)
    (ha : last.acao = p.acao.value) :
    checkResult env p db =
      .error ⟨400, "Último registro foi \x27" ++ last.acao ++
        "\x27. Você precisa registrar o oposto antes."⟩ := by
  unfold checkResult
  rw [hip]
  rw [heq] at hpin1 hpin2
  simp [hcpf, hpin1, hpin2, hu, heq, hl, ha]

theorem checkResult_success (env : Env) (p : CheckRequest) (db : List Registro)
    (nome pin : String)
    (hip : enforce_ip_allowlist env.allowed_ips env.client_ip = .ok ())
    (hcpf : (normalize_cpf p.cpf).length = 11)
    (hpin1 : 4 ≤ (normalize_pin p.pin).length)
    (hpin2 : (normalize_pin p.pin).length ≤ 8)
    (hu : env.users (normalize_cpf p.cpf) = some (nome, pin))
    (heq : normalize_pin p.pin = pin)
    (hl : ∀ last, lastEvent db (normalize_cpf p.cpf) = some last →
            last.acao ≠ p.acao.value) :
    checkResult env p db =
      .ok ⟨nome, normalize_cpf p.cpf, p.acao.value, brt_now env.now,
        some env.client_ip⟩ := by
  unfold checkResult
  rw [hip]
  rw [heq] at hpin1 hpin2
  cases hle : lastEvent db (normalize_cpf p.cpf) with
  | none => simp [hcpf, hpin1, hpin2, hu, heq, hle]
  | some last => simp [hcpf, hpin1, hpin2, hu, heq, hle, hl last hle]

theorem checkResult_ok_shape (env : Env) (p : CheckRequest) (db : List Registro)
    (reg : Registro) (h : checkResult env p db = .ok reg) :
    (normalize_cpf p.cpf).length = 11 ∧
    ∃ nome pin, env.users (normalize_cpf p.cpf) = some (nome, pin) ∧
      reg = ⟨nome, normalize_cpf p.cpf, p.acao.value, brt_now env.now,
        some env.client_ip⟩ := by
  unfold checkResult at h
  split at h
  · simp at h
  · split at h
    · simp at h
    · split at h
      · simp at h
      · split at h
        · simp at h
        · next nome pin hu =>
          split at h
          · simp at h
          · next hpin =>
            refine ⟨by omega, nome, pin, hu, ?_⟩
            split at h
            · split at h
              · simp at h
              · injection h with h
                exact h.symm
            · injection h with h
              exact h.symm

theorem checkResult_error_of_alternation (env : Env) (p : CheckRequest)
    (db : List Registro) (last : Registro)
    (hl : lastEvent db (normalize_cpf p.cpf) = some last)
    (ha : last.acao = p.acao.value) :
    ∃ err, checkResult env p db = .error err := by
  cases h : checkResult env p db with
  | error err => exact ⟨err, rfl⟩
  | ok reg =>
    unfold checkResult at h
    split at h
    · simp at h
    · split at h
      · simp at h
      · split at h
        · simp at h
        · split at h
          · simp at h
          · split at h
            · simp at h
            · rw [hl] at h
              simp only [ha] at h
              simp at h

theorem checkResult_error_status (env : Env) (p : CheckRequest)
    (db : List Registro) (err : HTTPException)
    (hip : enforce_ip_allowlist env.allowed_ips env.client_ip = .ok ())
    (h : checkResult env p db = .error err) :
    err.status_code = 400 ∨ err.status_code = 401 ∨ err.status_code = 404 := by
  unfold checkResult at h
  rw [hip] at h
  dsimp only at h
  split at h
  · injection h with h2
    rw [← h2]
    exact Or.inl rfl
  · split at h
    · injection h with h2
      rw [← h2]
      exact Or.inl rfl
    · split at h
      · injection h with h2
        rw [← h2]
        exact Or.inr (Or.inr rfl)
      · split at h
        · injection h with h2
          rw [← h2]
          exact Or.inr (Or.inl rfl)
        · split at h
          · split at h
            · injection h with h2
              rw [← h2]
              exact Or.inl rfl
            · simp at h
          · simp at h

/-! ### Concrete scenario used by counterexamples and witnesses -/

/-- A one-user roster: Ana Silva, identifier 12345678901, PIN 1234. -/
def usersAna : Users := fun c =>
  if c = "12345678901" then some ("Ana Silva", "1234") else none

/-- A request context with no allow-list configured. -/
def env0 : Env := ⟨[], usersAna, "10.0.0.5", 1736100000⟩

/-- A stored Entrada event for Ana. -/
def reg0 : Registro :=
  ⟨"Ana Silva", "12345678901", "Entrada", ⟨1736090000, BRT⟩, some "10.0.0.5"⟩

/-- A masked-identifier Entrada request with Ana's correct PIN. -/
def p0 : CheckRequest := ⟨"123.456.789-01", "1234", .ENTRADA⟩

/-- The status code of a handler outcome, when it is an error. -/
def errStatus : Except HTTPException CheckResponse → Option Nat
  | .error e => some e.status_code
  | .ok _ => none

/-! ### Claim theorems -/

/-- C1: whenever the most recent prior event for the request's
normalized identifier has the same action as the request, the check-in
call fails (no outcome is a success), the ledger is unchanged, and —
when every earlier guard passes — the error is the alternation
violation naming the prior action. -/
theorem registrar_ponto_alternation_rejected (env : Env) (p : CheckRequest)
    (db : List Registro) (last : Registro)
    (hl : lastEvent db (normalize_cpf p.cpf) = some last)
    (ha : last.acao = p.acao.value) :
    (registrar_ponto env p db).2 = db ∧
    (∃ err, (registrar_ponto env p db).1 = Except.error err) ∧
    (∀ nome pin,
      enforce_ip_allowlist env.allowed_ips env.client_ip = .ok () →
      (normalize_cpf p.cpf).length = 11 →
      4 ≤ (normalize_pin p.pin).length → (normalize_pin p.pin).length ≤ 8 →
      env.users (normalize_cpf p.cpf) = some (nome, pin) →
      normalize_pin p.pin = pin →
      (registrar_ponto env p db).1 =
        .error ⟨400, "Último registro foi \x27" ++ last.acao ++
          "\x27. Você precisa registrar o oposto antes."⟩) := by
  obtain ⟨err, herr⟩ := checkResult_error_of_alternation env p db last hl ha
  have hreg := registrar_of_error env p db err herr
  refine ⟨by rw [hreg], ⟨err, by rw [hreg]⟩, ?_⟩
  intro nome pin hip hcpf h1 h2 hu heq
  have halt := checkResult_alternation env p db nome pin last hip hcpf h1 h2 hu heq hl ha
  rw [registrar_of_error env p db _ halt]

/-- Witness for C1: with Ana's Entrada event stored, a second Entrada
request with the correct PIN leaves the table unchanged and returns
the alternation error naming Entrada. -/
theorem registrar_ponto_alternation_rejected_witness :
    (registrar_ponto env0 p0 [reg0]).2 = [reg0] ∧
    (registrar_ponto env0 p0 [reg0]).1 =
      .error ⟨400, "Último registro foi \x27Entrada\x27. Você precisa registrar o oposto antes."⟩ := by
  refine ⟨(registrar_ponto_alternation_rejected env0 p0 [reg0] reg0
    (by decide) (by decide)).1, ?_⟩
  have h := (registrar_ponto_alternation_rejected env0 p0 [reg0] reg0
    (by decide) (by decide)).2.2 "Ana Silva" "1234"
    (by rfl) (by decide) (by decide) (by decide) (by decide) (by decide)
  rw [h]
  rfl

/-- Counterexample to C5: the alternation-adjacent rejection carries
status 400, not 401, in a concrete run where every guard passes. -/
theorem alternation_status_counterexample :
    errStatus (registrar_ponto env0 p0 [reg0]).1 = some 400 ∧
    errStatus (registrar_ponto env0 p0 [reg0]).1 ≠ some 401 := by
  constructor
  · decide
  · decide

/-- C5 (amended): the alternation-adjacent rejection returns 400 — the
same status as validation failures — while 401 is returned for a bad
PIN, 403 for IP denial, and 404 for an unknown user. -/
theorem registrar_ponto_status_codes (env : Env) (p : CheckRequest)
    (db : List Registro) :
    (∀ nome pin last,
      enforce_ip_allowlist env.allowed_ips env.client_ip = .ok () →
      (normalize_cpf p.cpf).length = 11 →
      4 ≤ (normalize_pin p.pin).length → (normalize_pin p.pin).length ≤ 8 →
      env.users (normalize_cpf p.cpf) = some (nome, pin) →
      normalize_pin p.pin = pin →
      lastEvent db (normalize_cpf p.cpf) = some last →
      last.acao = p.acao.value →
      errStatus (registrar_ponto env p db).1 = some 400) ∧
    (∀ nome pin,
      enforce_ip_allowlist env.allowed_ips env.client_ip = .ok () →
      (normalize_cpf p.cpf).length = 11 →
      4 ≤ (normalize_pin p.pin).length → (normalize_pin p.pin).length ≤ 8 →
      env.users (normalize_cpf p.cpf) = some (nome, pin) →
      normalize_pin p.pin ≠ pin →
      errStatus (registrar_ponto env p db).1 = some 401) ∧
    (env.allowed_ips ≠ [] → env.client_ip ∉ env.allowed_ips →
      errStatus (registrar_ponto env p db).1 = some 403) ∧
    (enforce_ip_allowlist env.allowed_ips env.client_ip = .ok () →
      (normalize_cpf p.cpf).length = 11 →
      4 ≤ (normalize_pin p.pin).length → (normalize_pin p.pin).length ≤ 8 →
      env.users (normalize_cpf p.cpf) = none →
      errStatus (registrar_ponto env p db).1 = some 404) ∧
    (enforce_ip_allowlist env.allowed_ips env.client_ip = .ok () →
      (normalize_cpf p.cpf).length ≠ 11 →
      errStatus (registrar_ponto env p db).1 = some 400) := by
  refine ⟨?_, ?_, ?_, ?_, ?_⟩
  · intro nome pin last hip hcpf h1 h2 hu heq hl ha
    rw [registrar_of_error env p db _
      (checkResult_alternation env p db nome pin last hip hcpf h1 h2 hu heq hl ha)]
    rfl
  · intro nome pin hip hcpf h1 h2 hu hne
    rw [registrar_of_error env p db _
      (checkResult_pin_mismatch env p db nome pin hip hcpf h1 h2 hu hne)]
    rfl
  · intro hne hnotin
    have hipe : enforce_ip_allowlist env.allowed_ips env.client_ip =
        .error ⟨403, "Acesso negado fora do ambiente autorizado. IP=" ++ env.client_ip⟩ := by
      unfold enforce_ip_allowlist
      rw [if_neg hne, if_neg hnotin]
    rw [registrar_of_error env p db _ (checkResult_ip_error env p db _ hipe)]
    rfl
  · intro hip hcpf h1 h2 hu
    rw [registrar_of_error env p db _
      (checkResult_user_unknown env p db hip hcpf h1 h2 hu)]
    rfl
  · intro hip hcpf
    rw [registrar_of_error env p db _
      (checkResult_cpf_invalid env p db hip hcpf)]
    rfl

/-- Witness for the amended C5: concrete runs exercising the 400
(alternation), 401 (bad PIN), 403 (IP denied), 404 (unknown user) and
400 (validation) outcomes. -/
theorem registrar_ponto_status_codes_witness :
    errStatus (registrar_ponto env0 p0 [reg0]).1 = some 400 ∧
    errStatus (registrar_ponto env0 ⟨"12345678901", "9999", .ENTRADA⟩ []).1 = some 401 ∧
    errStatus (registrar_ponto ⟨["1.2.3.4"], usersAna, "10.0.0.5", 0⟩ p0 []).1 = some 403 ∧
    errStatus (registrar_ponto env0 ⟨"99999999999", "1234", .ENTRADA⟩ []).1 = some 404 ∧
    errStatus (registrar_ponto env0 ⟨"123", "1234", .ENTRADA⟩ []).1 = some 400 := by
  refine ⟨(registrar_ponto_status_codes env0 p0 [reg0]).1 "Ana Silva" "1234" reg0
      (by rfl) (by decide) (by decide) (by decide) (by decide) (by decide)
      (by decide) (by decide),
    (registrar_ponto_status_codes env0 _ []).2.1 "Ana Silva" "1234"
      (by rfl) (by decide) (by decide) (by decide) (by decide) (by decide),
    (registrar_ponto_status_codes ⟨["1.2.3.4"], usersAna, "10.0.0.5", 0⟩ p0 []).2.2.1
      (by decide) (by decide),
    (registrar_ponto_status_codes env0 _ []).2.2.2.1
      (by rfl) (by decide) (by decide) (by decide) (by decide),
    (registrar_ponto_status_codes env0 _ []).2.2.2.2
      (by rfl) (by decide)⟩

/-- C8: with no allow-list configured the guard accepts every client
and the check-in handler can never answer 403; with a non-empty
allow-list, a client address outside the list is answered 403 with the
table untouched, before any other check runs. -/
theorem ip_allowlist_guard (env : Env) (p : CheckRequest) (db : List Registro) :
    (env.allowed_ips = [] →
      enforce_ip_allowlist env.allowed_ips env.client_ip = .ok () ∧
      ∀ err, (registrar_ponto env p db).1 = .error err → err.status_code ≠ 403) ∧
    (env.allowed_ips ≠ [] → env.client_ip ∉ env.allowed_ips →
      registrar_ponto env p db =
        (.error ⟨403, "Acesso negado fora do ambiente autorizado. IP=" ++ env.client_ip⟩,
         db)) := by
  constructor
  · intro hempty
    have hok : enforce_ip_allowlist env.allowed_ips env.client_ip = .ok () := by
      unfold enforce_ip_allowlist
      rw [if_pos hempty]
    refine ⟨hok, ?_⟩
    intro err herr
    cases hc : checkResult env p db with
    | error e =>
      rw [registrar_of_error env p db e hc] at herr
      injection herr with h2
      rcases checkResult_error_status env p db e hok hc with h | h | h <;>
        rw [← h2] <;> omega
    | ok reg =>
      rw [registrar_of_ok env p db reg hc] at herr
      simp at herr
  · intro hne hnotin
    have hipe : enforce_ip_allowlist env.allowed_ips env.client_ip =
        .error ⟨403, "Acesso negado fora do ambiente autorizado. IP=" ++ env.client_ip⟩ := by
      unfold enforce_ip_allowlist
      rw [if_neg hne, if_neg hnotin]
    exact registrar_of_error env p db _ (checkResult_ip_error env p db _ hipe)

/-- Witness for C8: with the empty allow-list the alternation error of
the concrete run is not 403, and with allow-list [1.2.3.4] the client
10.0.0.5 is answered 403 with the table unchanged. -/
theorem ip_allowlist_guard_witness :
    ((registrar_ponto env0 p0 [reg0]).1 =
        .error ⟨400, "Último registro foi \x27Entrada\x27. Você precisa registrar o oposto antes."⟩ →
      (400 : Nat) ≠ 403) ∧
    registrar_ponto ⟨["1.2.3.4"], usersAna, "10.0.0.5", 0⟩ p0 [] =
      (.error ⟨403, "Acesso negado fora do ambiente autorizado. IP=10.0.0.5"⟩, []) := by
  constructor
  · intro herr
    exact ((ip_allowlist_guard env0 p0 [reg0]).1 rfl).2 _ herr
  · have h := (ip_allowlist_guard ⟨["1.2.3.4"], usersAna, "10.0.0.5", 0⟩ p0 []).2
      (by decide) (by decide)
    rw [h]
    rfl

/-- C2: parse_period rejects with status 400 any pair whose strings do
not parse as YYYY-MM-DD dates, or whose end date precedes the start
date; otherwise it returns the start date at 00:00:00 and the end date
at 23:59:59 at the fixed UTC-3 offset; on the concrete pairs of the
spec it fails for 2025-01-10..2025-01-05 and yields the documented
bounds for 2025-01-05..2025-01-05. -/
theorem parse_period_spec (a b : String) :
    (∀ da dbb, date_fromisoformat a = some da → date_fromisoformat b = some dbb →
      (dbb.ltb da = true →
        parse_period a b = .error ⟨400, "end deve ser >= start."⟩) ∧
      (dbb.ltb da = false →
        parse_period a b =
          .ok (datetime_combine da 0 0 0 BRT, datetime_combine dbb 23 59 59 BRT))) ∧
    (date_fromisoformat a = none ∨ date_fromisoformat b = none →
      parse_period a b = .error ⟨400, "Use start/end no formato YYYY-MM-DD."⟩) ∧
    parse_period "2025-01-05" "2025-01-05" =
      .ok (⟨1736046000, BRT⟩, ⟨1736132399, BRT⟩) ∧
    PyDateTime.isoformat ⟨1736046000, BRT⟩ = "2025-01-05T00:00:00-03:00" ∧
    PyDateTime.isoformat ⟨1736132399, BRT⟩ = "2025-01-05T23:59:59-03:00" ∧
    parse_period "2025-01-10" "2025-01-05" =
      .error ⟨400, "end deve ser >= start."⟩ := by
  refine ⟨?_, ?_, by rfl, by rfl, by rfl, by rfl⟩
  · intro da dbb ha hb
    constructor
    · intro hlt
      unfold parse_period
      rw [ha, hb]
      simp [hlt]
    · intro hlt
      unfold parse_period
      rw [ha, hb]
      simp [hlt]
  · intro hor
    unfold parse_period
    rcases hor with h | h
    · rw [h]
    · rw [h]
      rcases date_fromisoformat a with _ | d <;> rfl

/-- Witness for C2: a valid pair yields the combined bounds, and an
invalid calendar date (2025-02-30) is rejected. -/
theorem parse_period_spec_witness :
    parse_period "2025-02-01" "2025-03-05" =
      .ok (datetime_combine ⟨2025, 2, 1⟩ 0 0 0 BRT,
           datetime_combine ⟨2025, 3, 5⟩ 23 59 59 BRT) ∧
    parse_period "2025-02-30" "2025-03-05" =
      .error ⟨400, "Use start/end no formato YYYY-MM-DD."⟩ :=
  ⟨((parse_period_spec "2025-02-01" "2025-03-05").1 ⟨2025, 2, 1⟩ ⟨2025, 3, 5⟩
      (by decide) (by decide)).2 (by decide),
   (parse_period_spec "2025-02-30" "2025-03-05").2.1 (Or.inl (by decide))⟩

/-- The well-formedness every persisted event is claimed to satisfy:
an 11-digit unmasked identifier, one of the two action strings, and a
timestamp carrying the fixed UTC-3 offset. -/
def EventWF (r : Registro) : Prop :=
  r.cpf.length = 11 ∧ r.cpf.data.all Char.isDigit = true ∧
  (r.acao = "Entrada" ∨ r.acao = "Saída") ∧
  r.data_hora.offsetSec = BRT

/-- The ledger states reachable through the check-in operation,
starting from the empty table. -/
inductive Reachable : List Registro → Prop
  | init : Reachable []
  | step (env : Env) (p : CheckRequest) (db : List Registro) :
      Reachable db → Reachable (registrar_ponto env p db).2

/-- C9: in every ledger state reachable through check-in calls, every
stored event has an 11-digit all-digit identifier, an action equal to
Entrada or Saída, and a timestamp at the fixed UTC-3 offset. -/
theorem reachable_events_wf (db : List Registro) (h : Reachable db) :
    ∀ r ∈ db, EventWF r := by
  induction h with
  | init =>
    intro r hr
    cases hr
  | step env p db0 _ ih =>
    intro r hr
    cases hc : checkResult env p db0 with
    | error e =>
      have h2 : (registrar_ponto env p db0).2 = db0 := by
        rw [registrar_of_error env p db0 e hc]
      rw [h2] at hr
      exact ih r hr
    | ok reg =>
      have h2 : (registrar_ponto env p db0).2 = db0 ++ [reg] := by
        rw [registrar_of_ok env p db0 reg hc]
      rw [h2] at hr
      rcases List.mem_append.1 hr with hmem | hmem
      · exact ih r hmem
      · obtain ⟨hlen, nome, pin, hu, hreg⟩ := checkResult_ok_shape env p db0 reg hc
        have hr2 : r = reg := by simpa using hmem
        subst hr2
        rw [hreg]
        refine ⟨hlen, normalize_cpf_all_digits p.cpf, ?_, rfl⟩
        cases p.acao with
        | ENTRADA => exact Or.inl rfl
        | SAIDA => exact Or.inr rfl

/-- A clean Entrada request from Ana. -/
def p1 : CheckRequest := ⟨"12345678901", "1234", .ENTRADA⟩

/-- The row the concrete successful check-in run persists. -/
def reg1 : Registro :=
  ⟨"Ana Silva", "12345678901", "Entrada", ⟨1736100000, BRT⟩, some "10.0.0.5"⟩

/-- Witness for C9: the event persisted by a concrete successful
check-in on the empty ledger is well-formed. -/
theorem reachable_events_wf_witness : EventWF reg1 :=
  reachable_events_wf (registrar_ponto env0 p1 []).2
    (Reachable.step env0 p1 [] Reachable.init) reg1 (by decide)

/-- C3: the export range query returns a permutation of exactly the
stored events whose instant lies in [start, end] (both bounds
inclusive), sorted ascending by timestamp; an event exactly at the end
bound is returned, one a second past it is not. -/
theorem select_range_spec (db : List Registro) (s e : PyDateTime) :
    List.Perm (selectRegistros db s e)
      (db.filter fun r =>
        s.instant ≤ r.data_hora.instant && r.data_hora.instant ≤ e.instant) ∧
    List.Sorted dtLe (selectRegistros db s e) ∧
    (∀ r, r ∈ selectRegistros db s e ↔
      r ∈ db ∧ s.instant ≤ r.data_hora.instant ∧ r.data_hora.instant ≤ e.instant) ∧
    (∀ r, r ∈ db → s.instant ≤ e.instant → r.data_hora.instant = e.instant →
      r ∈ selectRegistros db s e) ∧
    (∀ r, r ∈ db → r.data_hora.instant = e.instant + 1 →
      r ∉ selectRegistros db s e) := by
  have hmem : ∀ r, r ∈ selectRegistros db s e ↔
      r ∈ db ∧ s.instant ≤ r.data_hora.instant ∧ r.data_hora.instant ≤ e.instant := by
    intro r
    unfold selectRegistros
    rw [List.mem_insertionSort, List.mem_filter]
    simp
  refine ⟨List.perm_insertionSort dtLe _, List.sorted_insertionSort dtLe _,
    hmem, ?_, ?_⟩
  · intro r hr hse hend
    exact (hmem r).2 ⟨hr, by omega, by omega⟩
  · intro r hr hend hin
    have := ((hmem r).1 hin).2.2
    omega

/-- Witness for C3: on a concrete two-event table with one event at
the end bound and one a second later, the query keeps the former and
drops the latter. -/
theorem select_range_spec_witness :
    (⟨"A", "12345678901", "Saída", ⟨1736132399, BRT⟩, none⟩ : Registro) ∈
      selectRegistros
        [⟨"A", "12345678901", "Saída", ⟨1736132399, BRT⟩, none⟩,
         ⟨"B", "22222222222", "Entrada", ⟨1736132400, BRT⟩, none⟩]
        ⟨1736046000, BRT⟩ ⟨1736132399, BRT⟩ ∧
    (⟨"B", "22222222222", "Entrada", ⟨1736132400, BRT⟩, none⟩ : Registro) ∉
      selectRegistros
        [⟨"A", "12345678901", "Saída", ⟨1736132399, BRT⟩, none⟩,
         ⟨"B", "22222222222", "Entrada", ⟨1736132400, BRT⟩, none⟩]
        ⟨1736046000, BRT⟩ ⟨1736132399, BRT⟩ :=
  ⟨(select_range_spec
        [⟨"A", "12345678901", "Saída", ⟨1736132399, BRT⟩, none⟩,
         ⟨"B", "22222222222", "Entrada", ⟨1736132400, BRT⟩, none⟩]
        ⟨1736046000, BRT⟩ ⟨1736132399, BRT⟩).2.2.2.1
      ⟨"A", "12345678901", "Saída", ⟨1736132399, BRT⟩, none⟩
      (by decide) (by decide) (by decide),
   (select_range_spec
        [⟨"A", "12345678901", "Saída", ⟨1736132399, BRT⟩, none⟩,
         ⟨"B", "22222222222", "Entrada", ⟨1736132400, BRT⟩, none⟩]
        ⟨1736046000, BRT⟩ ⟨1736132399, BRT⟩).2.2.2.2
      ⟨"B", "22222222222", "Entrada", ⟨1736132400, BRT⟩, none⟩
      (by decide) (by decide)⟩

/-- C6: the JSON, CSV and XLSX exports each render exactly the rows of
the shared range query, in its ascending order — CSV and XLSX produce
identical row lists, and the JSON records are the same events in the
same order — and every rendered timestamp is the event's timestamp
converted to the fixed UTC-3 offset before formatting. -/
theorem exports_render_same_rows (db : List Registro) (s e : PyDateTime) :
    admin_export_json_rows db s e =
      (selectRegistros db s e).map (fun r =>
        ⟨r.nome, r.cpf, r.acao, (r.data_hora.astimezone BRT).isoformat,
         r.ip_origem⟩) ∧
    admin_export_csv_rows db s e =
      ["Nome", "CPF", "Ação", "Data/Hora"] ::
        (selectRegistros db s e).map (fun r =>
          [r.nome, r.cpf, r.acao, (r.data_hora.astimezone BRT).strftimeBR]) ∧
    admin_export_xlsx_rows db s e = admin_export_csv_rows db s e :=
  ⟨rfl, rfl, rfl⟩

/-- C4: the roster loader skips blank and comment lines, skips header
fields, discards (without failing) records whose normalized identifier
is not exactly 11 digits or whose normalized PIN is not 4 to 8 digits,
keys each accepted record by its digits-only normalized identifier
mapped to (stripped name, normalized PIN), processes lines in file
order, and lets a later accepted record for the same normalized
identifier overwrite any earlier binding. -/
theorem load_users_spec :
    (∀ users raw,
      ((pyStrip raw).isEmpty || startsWithChar (pyStrip raw) '#') = true →
      processLine users raw = users) ∧
    (∀ users nome cpf pin, isHeader nome cpf pin = true →
      processFields users nome cpf pin = users) ∧
    (∀ users nome cpf pin, (normalize_cpf cpf).length ≠ 11 →
      processFields users nome cpf pin = users) ∧
    (∀ users nome cpf pin,
      ¬ (4 ≤ (normalize_pin pin).length ∧ (normalize_pin pin).length ≤ 8) →
      processFields users nome cpf pin = users) ∧
    (∀ users nome cpf pin, isHeader nome cpf pin = false →
      (normalize_cpf cpf).length = 11 →
      4 ≤ (normalize_pin pin).length → (normalize_pin pin).length ≤ 8 →
      processFields users nome cpf pin = fun k =>
        if k = normalize_cpf cpf then some (pyStrip nome, normalize_pin pin)
        else users k) ∧
    (∀ lines l, load_users_from_txt (lines ++ [l]) =
      processLine (load_users_from_txt lines) l) ∧
    (∀ users nome cpf pin, isHeader nome cpf pin = false →
      (normalize_cpf cpf).length = 11 →
      4 ≤ (normalize_pin pin).length → (normalize_pin pin).length ≤ 8 →
      processFields users nome cpf pin (normalize_cpf cpf) =
        some (pyStrip nome, normalize_pin pin)) := by
  have h5 : ∀ users nome cpf pin, isHeader nome cpf pin = false →
      (normalize_cpf cpf).length = 11 →
      4 ≤ (normalize_pin pin).length → (normalize_pin pin).length ≤ 8 →
      processFields users nome cpf pin = fun k =>
        if k = normalize_cpf cpf then some (pyStrip nome, normalize_pin pin)
        else users k := by
    intro users nome cpf pin hh hc h1 h2
    unfold processFields
    rw [hh]
    simp [hc, h1, h2]
  refine ⟨?_, ?_, ?_, ?_, h5, ?_, ?_⟩
  · intro users raw h
    unfold processLine
    rw [if_pos h]
  · intro users nome cpf pin h
    unfold processFields
    rw [h]
    rfl
  · intro users nome cpf pin h
    unfold processFields
    by_cases hh : isHeader nome cpf pin = true
    · rw [if_pos hh]
    · rw [if_neg hh, if_pos h]
  · intro users nome cpf pin h
    unfold processFields
    by_cases hh : isHeader nome cpf pin = true
    · rw [if_pos hh]
    · rw [if_neg hh]
      by_cases hc : (normalize_cpf cpf).length ≠ 11
      · rw [if_pos hc]
      · rw [if_neg hc, if_pos h]
  · intro lines l
    unfold load_users_from_txt
    rw [List.foldl_append]
    rfl
  · intro users nome cpf pin hh hc h1 h2
    rw [h5 users nome cpf pin hh hc h1 h2]
    simp

/-- Witness for C4: concrete applications — a blank line and a header
are skipped, a 10-digit identifier and a short PIN are discarded, an
accepted record overwrites Ana's earlier binding (later record wins),
and appending a line processes it after the earlier ones. -/
theorem load_users_spec_witness :
    processLine usersAna "   " = usersAna ∧
    processFields usersAna "nome" "cpf" "pin" = usersAna ∧
    processFields usersAna "Bob" "1234567890" "1234" = usersAna ∧
    processFields usersAna "Bob" "12345678901" "123" = usersAna ∧
    load_users_from_txt (["Ana;12345678901;1234"] ++ ["Maria;123.456.789-01;7777"]) =
      processLine (load_users_from_txt ["Ana;12345678901;1234"])
        "Maria;123.456.789-01;7777" ∧
    processFields usersAna "Maria" "123.456.789-01" "7777" "12345678901" =
      some ("Maria", "7777") := by
  refine ⟨load_users_spec.1 usersAna "   " (by decide),
    load_users_spec.2.1 usersAna "nome" "cpf" "pin" (by decide),
    load_users_spec.2.2.1 usersAna "Bob" "1234567890" "1234" (by decide),
    load_users_spec.2.2.2.1 usersAna "Bob" "12345678901" "123" (by decide),
    load_users_spec.2.2.2.2.2.1 ["Ana;12345678901;1234"] "Maria;123.456.789-01;7777",
    ?_⟩
  have h := load_users_spec.2.2.2.2.2.2 usersAna "Maria" "123.456.789-01" "7777"
    (by decide) (by decide) (by decide) (by decide)
  rw [show normalize_cpf "123.456.789-01" = "12345678901" by decide] at h
  rw [h]
  rfl

/-- C10: separator detection prefers the semicolon over the comma
wherever either occurs; a line with neither separator, or one that
splits into fewer than three fields, is silently skipped; and a line
splitting into more than three fields is accepted using only its first
three fields. -/
theorem roster_line_splitting :
    (∀ line, hasChar line ';' = true → detectSep line = some ';') ∧
    (∀ line, hasChar line ';' = false → hasChar line ',' = false →
      detectSep line = none) ∧
    (∀ users raw, detectSep (pyStrip raw) = none → processLine users raw = users) ∧
    (∀ users raw sep,
      ((pyStrip raw).isEmpty || startsWithChar (pyStrip raw) '#') = false →
      detectSep (pyStrip raw) = some sep →
      ((splitOnSep (pyStrip raw) sep).map pyStrip).length < 3 →
      processLine users raw = users) ∧
    (∀ users raw sep nome cpf pin rest,
      ((pyStrip raw).isEmpty || startsWithChar (pyStrip raw) '#') = false →
      detectSep (pyStrip raw) = some sep →
      (splitOnSep (pyStrip raw) sep).map pyStrip = nome :: cpf :: pin :: rest →
      processLine users raw = processFields users nome cpf pin) := by
  refine ⟨?_, ?_, ?_, ?_, ?_⟩
  · intro line h
    unfold detectSep
    rw [if_pos h]
  · intro line h1 h2
    unfold detectSep
    rw [if_neg (by simp [h1]), if_neg (by simp [h2])]
  · intro users raw h
    unfold processLine
    split
    · rfl
    · rw [h]
  · intro users raw sep hbc hsep hlen
    unfold processLine
    rw [if_neg (by simp [hbc]), hsep]
    show processParts users ((splitOnSep (pyStrip raw) sep).map pyStrip) = users
    cases hps : (splitOnSep (pyStrip raw) sep).map pyStrip with
    | nil => rfl
    | cons a t =>
      cases t with
      | nil => rfl
      | cons b t2 =>
        cases t2 with
        | nil => rfl
        | cons c t3 =>
          rw [hps] at hlen
          simp at hlen
          omega
  · intro users raw sep nome cpf pin rest hbc hsep hps
    unfold processLine
    rw [if_neg (by simp [hbc]), hsep]
    show processParts users ((splitOnSep (pyStrip raw) sep).map pyStrip) =
      processFields users nome cpf pin
    rw [hps]
    rfl

/-- Witness for C10: a line with both separators splits on the
semicolon; a separator-free line, and a two-field line, are skipped; a
four-field semicolon line is accepted by its first three fields. -/
theorem roster_line_splitting_witness :
    detectSep "Ana,Maria;12345678901;1234" = some ';' ∧
    detectSep "linha invalida" = none ∧
    processLine usersAna "linha invalida" = usersAna ∧
    processLine usersAna "So;DoisCampos" = usersAna ∧
    processLine usersAna "Maria;98765432109;5678;extra" =
      processFields usersAna "Maria" "98765432109" "5678" := by
  refine ⟨roster_line_splitting.1 "Ana,Maria;12345678901;1234" (by decide),
    roster_line_splitting.2.1 "linha invalida" (by decide) (by decide),
    roster_line_splitting.2.2.1 usersAna "linha invalida" (by decide),
    roster_line_splitting.2.2.2.1 usersAna "So;DoisCampos" ';'
      (by decide) (by decide) (by decide),
    roster_line_splitting.2.2.2.2 usersAna "Maria;98765432109;5678;extra" ';'
      "Maria" "98765432109" "5678" ["extra"]
      (by decide) (by decide) (by decide)⟩

end AttendanceApp
